import Mathlib

/-!
Shallow embedding of the es-optimize resharding orchestrator
(`elasticsearch.py`): the `IndexOptimizer` class with its
`index_replace` and `index_optimize_shards` methods.

Modelling choices:
- Cluster-client calls (`Connection` methods) are recorded as a trace
  (`List Call`) in the order the code issues them; the cluster's
  responses are an environment (`Env`) supplied as input.
- Machine integers are `Nat`; Python's true division compared against a
  threshold is modelled exactly over `ℚ`; Python's `round` (banker's
  round-half-to-even) is `pyRound` over exact ratios of naturals.
- Python's `ZeroDivisionError` is modelled by `PyError.zeroDivisionError`:
  a run returns the trace of calls issued before the error together with
  an `Except` outcome.
- Timeout strings such as `"3m"`/`"2h"` are modelled by their numeric
  value (minutes for index creation, hours for reindex).
-/

namespace Es

/-- Threshold LOW from the source: 2 GiB in bytes. -/
def size_2gb : Nat := 2147483648

/-- Threshold UNIT from the source: 30 GiB in bytes. -/
def size_30gb : Nat := 32212254720

/-- Threshold HIGH from the source: 45 GiB in bytes. -/
def size_45gb : Nat := 48318382080

/-- Python's `round(num / den)` for non-negative integers `num`, `den`:
round-half-to-even of the exact ratio. (Junk value when `den = 0`;
call sites model Python's `ZeroDivisionError` separately.) -/
def pyRound (num den : Nat) : Nat :=
  if 2 * (num % den) < den then num / den
  else if den < 2 * (num % den) then num / den + 1
  else if num / den % 2 = 0 then num / den else num / den + 1

/-- The slice of an index's configuration that `index_replace` and
`index_optimize_shards` read: mappings blob (opaque), optional analysis
blob (opaque), `number_of_shards`, `number_of_replicas`. -/
structure IndexConfig where
  mappings : String
  analysis : Option String
  number_of_shards : Nat
  number_of_replicas : Nat
  deriving DecidableEq

/-- The slice of an index's statistics the code reads:
`_shards.total` and `_all.primaries.store.size_in_bytes`. -/
structure IndexStats where
  shards_total : Nat
  primary_size_in_bytes : Nat
  deriving DecidableEq

/-- State captured in `IndexOptimizer.__init__` from the cluster stats:
data-node count, total index count, total shard count. -/
structure IndexOptimizer where
  datanodes : Nat
  indices : Nat
  shards : Nat
  deriving DecidableEq

/-- The cluster's responses to the `Connection` calls one run makes:
the source index's config and stats, and the success booleans returned
by `index_create`, `index_reindex` and `index_delete`. -/
structure Env where
  config : IndexConfig
  stats : IndexStats
  create_ok : Bool
  reindex_ok : Bool
  delete_ok : Bool
  deriving DecidableEq

/-- One cluster-client call as issued by the code, with the request
arguments it carries. -/
inductive Call where
  | index_get_config (index : String)
  | index_create (index : String) (mappings : String) (number_of_shards : Nat)
      (analysis : Option String) (number_of_replicas : Nat) (timeout_minutes : Nat)
  | index_get_stats (index : String)
  | index_reindex (index : String) (new_index : String) (slices : Nat) (timeout_hours : Nat)
  | index_delete (index : String)
  | alias_update (index : String) (alias_name : String)
  | index_forcemerge (index : String)
  deriving DecidableEq

/-- Whether a call mutates cluster state; only the two fetches are
read-only. -/
def Call.isMutating : Call → Bool
  | Call.index_get_config _ => false
  | Call.index_get_stats _ => false
  | _ => true

/-- Python exception surfaced by a run. -/
inductive PyError where
  | zeroDivisionError
  deriving DecidableEq

/-- Creation timeout from the source (`elasticsearch.py` line 173),
in minutes: `1 + round(self._indices / self._datanodes)`. -/
def c_timeout (indices datanodes : Nat) : Nat :=
  1 + pyRound indices datanodes

/-- Reindex timeout from the source (`elasticsearch.py` line 185),
in hours: `1 + round(primary_size / 500000000)`. -/
def r_timeout (primary_size : Nat) : Nat :=
  1 + pyRound primary_size 500000000

/-- `IndexOptimizer.index_replace` (`elasticsearch.py` lines 144-199):
returns the trace of client calls issued and the outcome. The division
`self._indices / self._datanodes` on line 173 raises
`ZeroDivisionError` when the snapshot has zero data nodes, after the
config fetch and before any mutating call; otherwise all seven calls
are issued unconditionally (no return value of any call is inspected). -/
def index_replace (opt : IndexOptimizer) (env : Env) (new_index index : String)
    (shards : Nat) : List Call × Except PyError Unit :=
  let idx_cfg := env.config
  let replicas :=
    if idx_cfg.number_of_replicas > opt.datanodes then opt.datanodes
    else idx_cfg.number_of_replicas
  if opt.datanodes = 0 then
    ([Call.index_get_config index], Except.error PyError.zeroDivisionError)
  else
    ([Call.index_get_config index,
      Call.index_create new_index idx_cfg.mappings shards idx_cfg.analysis replicas
        (c_timeout opt.indices opt.datanodes),
      Call.index_get_stats index,
      Call.index_reindex index new_index env.stats.shards_total
        (r_timeout env.stats.primary_size_in_bytes),
      Call.index_delete index,
      Call.alias_update new_index index,
      Call.index_forcemerge new_index], Except.ok ())

/-- `IndexOptimizer.index_optimize_shards` (`elasticsearch.py` lines
201-232): fetches config and stats, then either reduces to 1 shard,
expands, or does nothing. The elif condition
`index_primary_size / index_shards > size_45gb` raises
`ZeroDivisionError` when the configured shard count is 0 (Python reaches
it whenever the first condition is false, which `index_shards = 0`
forces). `new_index` stands for the fresh `uuid4` name generated inside
`index_replace`. -/
def index_optimize_shards (opt : IndexOptimizer) (env : Env) (new_index index : String) :
    List Call × Except PyError Unit :=
  let index_shards := env.config.number_of_shards
  let index_primary_size := env.stats.primary_size_in_bytes
  if index_primary_size < size_2gb ∧ index_shards > 1 then
    let rep := index_replace opt env new_index index 1
    ([Call.index_get_config index, Call.index_get_stats index] ++ rep.1, rep.2)
  else if index_shards = 0 then
    ([Call.index_get_config index, Call.index_get_stats index],
     Except.error PyError.zeroDivisionError)
  else if (index_primary_size : ℚ) / (index_shards : ℚ) > (size_45gb : ℚ) then
    let number_of_shards := pyRound index_primary_size size_30gb
    if index_shards < number_of_shards then
      let rep := index_replace opt env new_index index number_of_shards
      ([Call.index_get_config index, Call.index_get_stats index] ++ rep.1, rep.2)
    else
      ([Call.index_get_config index, Call.index_get_stats index], Except.ok ())
  else
    ([Call.index_get_config index, Call.index_get_stats index], Except.ok ())

/-- Timeout argument of the first `index_create` call in a trace. -/
def createTimeoutOf : List Call → Option Nat
  | [] => none
  | Call.index_create _ _ _ _ _ t :: _ => some t
  | _ :: rest => createTimeoutOf rest

/-- Replica-count argument of the first `index_create` call in a trace. -/
def createReplicasOf : List Call → Option Nat
  | [] => none
  | Call.index_create _ _ _ _ r _ :: _ => some r
  | _ :: rest => createReplicasOf rest

/-- Timeout argument of the first `index_reindex` call in a trace. -/
def reindexTimeoutOf : List Call → Option Nat
  | [] => none
  | Call.index_reindex _ _ _ t :: _ => some t
  | _ :: rest => reindexTimeoutOf rest

/-- Modelled from the spec: the creation timeout the spec claims,
`ceil(total index count / data-node count)` minutes with a minimum of
1 minute. Stated for comparison against the source's `c_timeout`. -/
def specCreationTimeout (indexCount dataNodeCount : Nat) : Nat :=
  max 1 ((indexCount + dataNodeCount - 1) / dataNodeCount)

/-- Modelled from the spec: the reindex timeout the spec claims,
`ceil(primary size in bytes / 500000000)` hours with a minimum of
1 hour. Stated for comparison against the source's `r_timeout`. -/
def specReindexTimeout (primarySizeBytes : Nat) : Nat :=
  max 1 ((primarySizeBytes + 499999999) / 500000000)

end Es

namespace Es

/-- Lower bound: banker's rounding of `n / d` is at least the floor. -/
theorem le_pyRound (n d : Nat) : n / d ≤ pyRound n d := by
  unfold pyRound
  split_ifs <;> omega

/-- Upper bound: banker's rounding of `n / d` is at most the floor plus one. -/
theorem pyRound_le (n d : Nat) : pyRound n d ≤ n / d + 1 := by
  unfold pyRound
  split_ifs <;> omega

/-- Monotonicity of banker's rounding in the numerator, denominator fixed
and positive. -/
theorem pyRound_mono (d n1 n2 : Nat) (hd : 0 < d) (h : n1 ≤ n2) :
    pyRound n1 d ≤ pyRound n2 d := by
  rcases Nat.lt_or_ge (n1 / d) (n2 / d) with hq | hq
  · calc pyRound n1 d ≤ n1 / d + 1 := pyRound_le n1 d
      _ ≤ n2 / d := hq
      _ ≤ pyRound n2 d := le_pyRound n2 d
  · have hq' : n1 / d = n2 / d := Nat.le_antisymm (Nat.div_le_div_right h) hq
    have h1 : d * (n1 / d) + n1 % d = n1 := Nat.div_add_mod n1 d
    have h2 : d * (n1 / d) + n2 % d = n2 := by rw [hq']; exact Nat.div_add_mod n2 d
    have hr : n1 % d ≤ n2 % d := by omega
    unfold pyRound
    rw [hq']
    split_ifs <;> omega

/-- Bridge between the exact rational comparison the embedding mirrors
from Python and its integer form: for `s > 0`,
`c < p / s` over `ℚ` iff `c * s < p` over `ℕ`. -/
theorem cast_div_gt_iff (p s c : Nat) (hs : 0 < s) :
    ((c : ℚ) < (p : ℚ) / (s : ℚ)) ↔ c * s < p := by
  rw [lt_div_iff₀ (by exact_mod_cast hs)]
  exact_mod_cast Iff.rfl

/-- Concrete cluster snapshot for concrete evaluations: one data node,
one index, one shard. -/
def optA : IndexOptimizer := { datanodes := 1, indices := 1, shards := 1 }

/-- Concrete run environment in which the reindex call reports failure:
4-shard, 1 GiB source index. -/
def envReindexFail : Env :=
  { config := { mappings := "m", analysis := none, number_of_shards := 4,
                number_of_replicas := 0 },
    stats := { shards_total := 4, primary_size_in_bytes := 1073741824 },
    create_ok := true, reindex_ok := false, delete_ok := true }

/-- Concrete run environment in which the create call reports failure:
4-shard, 1 GiB source index. -/
def envCreateFail : Env :=
  { config := { mappings := "m", analysis := none, number_of_shards := 4,
                number_of_replicas := 0 },
    stats := { shards_total := 4, primary_size_in_bytes := 1073741824 },
    create_ok := false, reindex_ok := true, delete_ok := true }

/-- Claim C1 is false on the code: in a run where the reindex call
reports failure, the workflow still deletes the source index ("logs"),
contradicting "the source index is not deleted ... untouched". -/
theorem C1_cex :
    envReindexFail.reindex_ok = false ∧
    Call.index_delete ("logs") ∈
      (index_replace optA envReindexFail ("replacement-1") ("logs") 1).1 := by
  decide

/-- Claim C1 as amended: when the reindex call reports failure, the
workflow does not abort and reports no error: it still deletes the
source index and binds the source's name as an alias of the
replacement. -/
theorem C1_theorem (opt : IndexOptimizer) (env : Env) (new_index index : String)
    (shards : Nat) (hd : 1 ≤ opt.datanodes) (hfail : env.reindex_ok = false) :
    Call.index_delete index ∈ (index_replace opt env new_index index shards).1 ∧
    Call.alias_update new_index index ∈ (index_replace opt env new_index index shards).1 ∧
    (index_replace opt env new_index index shards).2 = Except.ok () := by
  have h0 : ¬ opt.datanodes = 0 := by omega
  simp [index_replace, h0]

/-- Witness for C1_theorem at the concrete reindex-failure environment. -/
theorem C1_witness :
    1 ≤ optA.datanodes ∧ envReindexFail.reindex_ok = false ∧
    (Call.index_delete ("logs") ∈
        (index_replace optA envReindexFail ("replacement-1") ("logs") 1).1 ∧
      Call.alias_update ("replacement-1") ("logs") ∈
        (index_replace optA envReindexFail ("replacement-1") ("logs") 1).1 ∧
      (index_replace optA envReindexFail ("replacement-1") ("logs") 1).2 = Except.ok ()) :=
  ⟨by decide, by decide,
    C1_theorem optA envReindexFail ("replacement-1") ("logs") 1 (by decide) (by decide)⟩

/-- Claim C2 is false on the code: in a run where the create call
reports failure, the workflow does not abort — it still issues mutating
calls, and in particular deletes the source index ("logs"). -/
theorem C2_cex :
    envCreateFail.create_ok = false ∧
    Call.index_delete ("logs") ∈
      (index_replace optA envCreateFail ("replacement-2") ("logs") 1).1 := by
  decide

/-- Claim C2 as amended: when the create call reports failure, the
workflow continues unconditionally: it still issues the reindex call,
deletes the source index, rebinds the alias, and reports no error. -/
theorem C2_theorem (opt : IndexOptimizer) (env : Env) (new_index index : String)
    (shards : Nat) (hd : 1 ≤ opt.datanodes) (hfail : env.create_ok = false) :
    Call.index_reindex index new_index env.stats.shards_total
        (r_timeout env.stats.primary_size_in_bytes) ∈
      (index_replace opt env new_index index shards).1 ∧
    Call.index_delete index ∈ (index_replace opt env new_index index shards).1 ∧
    Call.alias_update new_index index ∈ (index_replace opt env new_index index shards).1 ∧
    (index_replace opt env new_index index shards).2 = Except.ok () := by
  have h0 : ¬ opt.datanodes = 0 := by omega
  simp [index_replace, h0]

/-- Witness for C2_theorem at the concrete create-failure environment. -/
theorem C2_witness :
    1 ≤ optA.datanodes ∧ envCreateFail.create_ok = false ∧
    (Call.index_reindex ("logs") ("replacement-2") envCreateFail.stats.shards_total
        (r_timeout envCreateFail.stats.primary_size_in_bytes) ∈
        (index_replace optA envCreateFail ("replacement-2") ("logs") 1).1 ∧
      Call.index_delete ("logs") ∈
        (index_replace optA envCreateFail ("replacement-2") ("logs") 1).1 ∧
      Call.alias_update ("replacement-2") ("logs") ∈
        (index_replace optA envCreateFail ("replacement-2") ("logs") 1).1 ∧
      (index_replace optA envCreateFail ("replacement-2") ("logs") 1).2 = Except.ok ()) :=
  ⟨by decide, by decide,
    C2_theorem optA envCreateFail ("replacement-2") ("logs") 1 (by decide) (by decide)⟩

end Es

namespace Es

/-- Concrete environment: 4-shard source index of 1 GiB primary size. -/
def envSmall4 : Env :=
  { config := { mappings := "m", analysis := none, number_of_shards := 4,
                number_of_replicas := 0 },
    stats := { shards_total := 4, primary_size_in_bytes := 1073741824 },
    create_ok := true, reindex_ok := true, delete_ok := true }

/-- Concrete environment: 1-shard source index of 1 GiB primary size. -/
def envSmall1 : Env :=
  { config := { mappings := "m", analysis := none, number_of_shards := 1,
                number_of_replicas := 0 },
    stats := { shards_total := 1, primary_size_in_bytes := 1073741824 },
    create_ok := true, reindex_ok := true, delete_ok := true }

/-- Concrete environment: 1-shard source index of 48 GiB primary size. -/
def env48 : Env :=
  { config := { mappings := "m", analysis := none, number_of_shards := 1,
                number_of_replicas := 0 },
    stats := { shards_total := 1, primary_size_in_bytes := 51539607552 },
    create_ok := true, reindex_ok := true, delete_ok := true }

/-- Claim C3: if the primary size is below 2 GiB and the shard count
exceeds 1, the driver enters the replace workflow with target 1 shard;
if the shard count is exactly 1 and the primary size is below 2 GiB,
no action is taken beyond the two read-only fetches. -/
theorem C3_theorem (opt : IndexOptimizer) (env : Env) (new_index index : String) :
    (env.stats.primary_size_in_bytes < size_2gb → env.config.number_of_shards > 1 →
      index_optimize_shards opt env new_index index =
        ([Call.index_get_config index, Call.index_get_stats index] ++
          (index_replace opt env new_index index 1).1,
         (index_replace opt env new_index index 1).2)) ∧
    (env.stats.primary_size_in_bytes < size_2gb → env.config.number_of_shards = 1 →
      index_optimize_shards opt env new_index index =
        ([Call.index_get_config index, Call.index_get_stats index], Except.ok ())) := by
  constructor
  · intro hp hs
    simp only [index_optimize_shards]
    rw [if_pos ⟨hp, hs⟩]
  · intro hp hs
    have hnc : ¬ (env.stats.primary_size_in_bytes < size_2gb ∧
        env.config.number_of_shards > 1) := by omega
    have h45 : ¬ ((env.stats.primary_size_in_bytes : ℚ) /
        (env.config.number_of_shards : ℚ) > (size_45gb : ℚ)) := by
      rw [gt_iff_lt, cast_div_gt_iff _ _ _ (by omega)]
      simp only [size_2gb] at hp
      simp only [size_45gb]
      omega
    simp only [index_optimize_shards]
    rw [if_neg hnc, if_neg (by omega : ¬ env.config.number_of_shards = 0), if_neg h45]

/-- Witness for C3_theorem: a 4-shard 1 GiB index is consolidated to 1
shard; a 1-shard 1 GiB index triggers no action. -/
theorem C3_witness :
    index_optimize_shards optA envSmall4 ("replacement-3") ("logs") =
      ([Call.index_get_config ("logs"), Call.index_get_stats ("logs")] ++
        (index_replace optA envSmall4 ("replacement-3") ("logs") 1).1,
       (index_replace optA envSmall4 ("replacement-3") ("logs") 1).2) ∧
    index_optimize_shards optA envSmall1 ("replacement-3") ("logs") =
      ([Call.index_get_config ("logs"), Call.index_get_stats ("logs")], Except.ok ()) :=
  ⟨(C3_theorem optA envSmall4 ("replacement-3") ("logs")).1 (by decide) (by decide),
   (C3_theorem optA envSmall1 ("replacement-3") ("logs")).2 (by decide) (by decide)⟩

/-- Claim C4: for an index not matching the consolidate rule, if
`primary size / shard count > 45 GiB` (exact rational comparison) the
driver computes `candidate = round(primary size / 30 GiB)` and enters
the replace workflow with that candidate exactly when it exceeds the
current shard count; when the candidate does not exceed it, or when the
ratio is not above 45 GiB, no action is taken. -/
theorem C4_theorem (opt : IndexOptimizer) (env : Env) (new_index index : String)
    (hs : 1 ≤ env.config.number_of_shards)
    (hnc : ¬ (env.stats.primary_size_in_bytes < size_2gb ∧
      env.config.number_of_shards > 1)) :
    ((env.stats.primary_size_in_bytes : ℚ) / (env.config.number_of_shards : ℚ) >
        (size_45gb : ℚ) →
      (env.config.number_of_shards <
          pyRound env.stats.primary_size_in_bytes size_30gb →
        index_optimize_shards opt env new_index index =
          ([Call.index_get_config index, Call.index_get_stats index] ++
            (index_replace opt env new_index index
              (pyRound env.stats.primary_size_in_bytes size_30gb)).1,
           (index_replace opt env new_index index
              (pyRound env.stats.primary_size_in_bytes size_30gb)).2)) ∧
      (pyRound env.stats.primary_size_in_bytes size_30gb ≤
          env.config.number_of_shards →
        index_optimize_shards opt env new_index index =
          ([Call.index_get_config index, Call.index_get_stats index], Except.ok ()))) ∧
    (¬ ((env.stats.primary_size_in_bytes : ℚ) / (env.config.number_of_shards : ℚ) >
        (size_45gb : ℚ)) →
      index_optimize_shards opt env new_index index =
        ([Call.index_get_config index, Call.index_get_stats index], Except.ok ())) := by
  constructor
  · intro h45
    constructor
    · intro hcand
      simp only [index_optimize_shards]
      rw [if_neg hnc, if_neg (by omega : ¬ env.config.number_of_shards = 0),
        if_pos h45, if_pos hcand]
    · intro hcand
      simp only [index_optimize_shards]
      rw [if_neg hnc, if_neg (by omega : ¬ env.config.number_of_shards = 0),
        if_pos h45, if_neg (by omega : ¬ env.config.number_of_shards <
          pyRound env.stats.primary_size_in_bytes size_30gb)]
  · intro h45
    simp only [index_optimize_shards]
    rw [if_neg hnc, if_neg (by omega : ¬ env.config.number_of_shards = 0), if_neg h45]

/-- Witness for C4_theorem: a 1-shard 48 GiB index has ratio above
45 GiB and candidate round(48 GiB / 30 GiB) = 2 > 1, so the workflow is
entered with 2 shards; a 1-shard 1 GiB index has ratio below 45 GiB,
so nothing happens. -/
theorem C4_witness :
    index_optimize_shards optA env48 ("replacement-4") ("logs") =
      ([Call.index_get_config ("logs"), Call.index_get_stats ("logs")] ++
        (index_replace optA env48 ("replacement-4") ("logs")
          (pyRound env48.stats.primary_size_in_bytes size_30gb)).1,
       (index_replace optA env48 ("replacement-4") ("logs")
          (pyRound env48.stats.primary_size_in_bytes size_30gb)).2) ∧
    index_optimize_shards optA envSmall1 ("replacement-4") ("logs") =
      ([Call.index_get_config ("logs"), Call.index_get_stats ("logs")], Except.ok ()) :=
  ⟨((C4_theorem optA env48 ("replacement-4") ("logs") (by decide) (by decide)).1
      (by norm_num [env48, size_45gb]) ).1 (by decide),
   (C4_theorem optA envSmall1 ("replacement-4") ("logs") (by decide) (by decide)).2
      (by norm_num [envSmall1, size_45gb])⟩

end Es

namespace Es

/-- Concrete cluster snapshot with two indices on one data node. -/
def optB : IndexOptimizer := { datanodes := 1, indices := 2, shards := 4 }

/-- Concrete environment: 4-shard source index of exactly 500 MB. -/
def envHalfGig : Env :=
  { config := { mappings := "m", analysis := none, number_of_shards := 4,
                number_of_replicas := 0 },
    stats := { shards_total := 4, primary_size_in_bytes := 500000000 },
    create_ok := true, reindex_ok := true, delete_ok := true }

/-- Claim C5 is false on the code: with 2 indices on 1 data node the
creation timeout issued is 3 minutes, not `ceil(2/1) = 2`; with a 500 MB
primary the reindex timeout issued is 2 hours, not `ceil(1) = 1`. -/
theorem C5_cex :
    createTimeoutOf ((index_replace optB envHalfGig ("replacement-5") ("logs") 1).1) ≠
      some (specCreationTimeout optB.indices optB.datanodes) ∧
    reindexTimeoutOf ((index_replace optB envHalfGig ("replacement-5") ("logs") 1).1) ≠
      some (specReindexTimeout envHalfGig.stats.primary_size_in_bytes) := by
  decide

/-- Claim C5 as amended: the creation timeout equals
`1 + round(index count / data-node count)` minutes and the reindex
timeout equals `1 + round(primary size / 500000000)` hours, `round`
being round-half-to-even on the exact ratio; both are therefore at
least 1. -/
theorem C5_theorem (opt : IndexOptimizer) (env : Env) (new_index index : String)
    (shards : Nat) (hd : 1 ≤ opt.datanodes) :
    createTimeoutOf ((index_replace opt env new_index index shards).1) =
      some (1 + pyRound opt.indices opt.datanodes) ∧
    reindexTimeoutOf ((index_replace opt env new_index index shards).1) =
      some (1 + pyRound env.stats.primary_size_in_bytes 500000000) ∧
    1 ≤ 1 + pyRound opt.indices opt.datanodes ∧
    1 ≤ 1 + pyRound env.stats.primary_size_in_bytes 500000000 := by
  have h0 : ¬ opt.datanodes = 0 := by omega
  refine ⟨?_, ?_, by omega, by omega⟩
  · simp [index_replace, h0, createTimeoutOf, c_timeout]
  · simp [index_replace, h0, reindexTimeoutOf, r_timeout]

/-- Witness for C5_theorem at the 2-indices-1-node snapshot and 500 MB
primary size. -/
theorem C5_witness :
    1 ≤ optB.datanodes ∧
    (createTimeoutOf ((index_replace optB envHalfGig ("replacement-5") ("logs") 1).1) =
        some (1 + pyRound optB.indices optB.datanodes) ∧
      reindexTimeoutOf ((index_replace optB envHalfGig ("replacement-5") ("logs") 1).1) =
        some (1 + pyRound envHalfGig.stats.primary_size_in_bytes 500000000) ∧
      1 ≤ 1 + pyRound optB.indices optB.datanodes ∧
      1 ≤ 1 + pyRound envHalfGig.stats.primary_size_in_bytes 500000000) :=
  ⟨by decide, C5_theorem optB envHalfGig ("replacement-5") ("logs") 1 (by decide)⟩

/-- Concrete environment: source index whose configured shard count is 0. -/
def envZeroShards : Env :=
  { config := { mappings := "m", analysis := none, number_of_shards := 0,
                number_of_replicas := 0 },
    stats := { shards_total := 0, primary_size_in_bytes := 10 },
    create_ok := true, reindex_ok := true, delete_ok := true }

/-- Claim C6: when the configured shard count is 0, the driver fails
with the (zero-division) error immediately after the two read-only
fetches, and both calls issued are non-mutating. -/
theorem C6_theorem (opt : IndexOptimizer) (env : Env) (new_index index : String)
    (hz : env.config.number_of_shards = 0) :
    index_optimize_shards opt env new_index index =
      ([Call.index_get_config index, Call.index_get_stats index],
       Except.error PyError.zeroDivisionError) ∧
    (Call.index_get_config index).isMutating = false ∧
    (Call.index_get_stats index).isMutating = false := by
  have hnc : ¬ (env.stats.primary_size_in_bytes < size_2gb ∧
      env.config.number_of_shards > 1) := by omega
  refine ⟨?_, rfl, rfl⟩
  simp only [index_optimize_shards]
  rw [if_neg hnc, if_pos hz]

/-- Witness for C6_theorem at the zero-shard environment. -/
theorem C6_witness :
    envZeroShards.config.number_of_shards = 0 ∧
    (index_optimize_shards optA envZeroShards ("replacement-6") ("logs") =
        ([Call.index_get_config ("logs"), Call.index_get_stats ("logs")],
         Except.error PyError.zeroDivisionError) ∧
      (Call.index_get_config ("logs")).isMutating = false ∧
      (Call.index_get_stats ("logs")).isMutating = false) :=
  ⟨rfl, C6_theorem optA envZeroShards ("replacement-6") ("logs") rfl⟩

/-- Claim C7: the replica count placed in the replacement index's
settings never exceeds the snapshot's data-node count, and when the
source's configured replicas are within that bound they are carried
over unchanged. -/
theorem C7_theorem (opt : IndexOptimizer) (env : Env) (new_index index : String)
    (shards : Nat) (hd : 1 ≤ opt.datanodes) :
    (createReplicasOf ((index_replace opt env new_index index shards).1)).getD 0 ≤
      opt.datanodes ∧
    (env.config.number_of_replicas ≤ opt.datanodes →
      createReplicasOf ((index_replace opt env new_index index shards).1) =
        some env.config.number_of_replicas) := by
  have h0 : ¬ opt.datanodes = 0 := by omega
  constructor
  · simp [index_replace, h0, createReplicasOf]
    split_ifs <;> omega
  · intro hle
    have hno : ¬ env.config.number_of_replicas > opt.datanodes := by omega
    simp [index_replace, h0, createReplicasOf, hno]

/-- Concrete cluster snapshot with three data nodes. -/
def optC : IndexOptimizer := { datanodes := 3, indices := 6, shards := 12 }

/-- Concrete environment: source index configured with 5 replicas,
more than the snapshot's 3 data nodes. -/
def envManyReplicas : Env :=
  { config := { mappings := "m", analysis := none, number_of_shards := 4,
                number_of_replicas := 5 },
    stats := { shards_total := 24, primary_size_in_bytes := 1073741824 },
    create_ok := true, reindex_ok := true, delete_ok := true }

/-- Witness for C7_theorem: with 5 configured replicas and 3 data nodes
the replacement gets 3 replicas (the cap). -/
theorem C7_witness :
    1 ≤ optC.datanodes ∧
    ((createReplicasOf ((index_replace optC envManyReplicas ("replacement-7") ("logs") 1).1)).getD 0 ≤
        optC.datanodes ∧
      (envManyReplicas.config.number_of_replicas ≤ optC.datanodes →
        createReplicasOf ((index_replace optC envManyReplicas ("replacement-7") ("logs") 1).1) =
          some envManyReplicas.config.number_of_replicas)) :=
  ⟨by decide, C7_theorem optC envManyReplicas ("replacement-7") ("logs") 1 (by decide)⟩

end Es

namespace Es

/-- Claim C8: when neither policy rule fires (primary below 2 GiB only
with a single shard; ratio not above 45 GiB, or expansion candidate not
exceeding the current count), one driver invocation issues exactly the
two read-only fetches and nothing else — so a repeated invocation on
the unchanged cluster state performs zero mutations as well. -/
theorem C8_theorem (opt : IndexOptimizer) (env : Env) (new_index index : String)
    (hs : 1 ≤ env.config.number_of_shards)
    (hnc : ¬ (env.stats.primary_size_in_bytes < size_2gb ∧
      env.config.number_of_shards > 1))
    (hne : ¬ ((env.stats.primary_size_in_bytes : ℚ) /
        (env.config.number_of_shards : ℚ) > (size_45gb : ℚ)) ∨
      pyRound env.stats.primary_size_in_bytes size_30gb ≤
        env.config.number_of_shards) :
    index_optimize_shards opt env new_index index =
      ([Call.index_get_config index, Call.index_get_stats index], Except.ok ()) ∧
    (Call.index_get_config index).isMutating = false ∧
    (Call.index_get_stats index).isMutating = false := by
  refine ⟨?_, rfl, rfl⟩
  simp only [index_optimize_shards]
  rw [if_neg hnc, if_neg (by omega : ¬ env.config.number_of_shards = 0)]
  by_cases h45 : ((env.stats.primary_size_in_bytes : ℚ) /
      (env.config.number_of_shards : ℚ) > (size_45gb : ℚ))
  · rcases hne with h | h
    · exact absurd h45 h
    · rw [if_pos h45, if_neg (by omega : ¬ env.config.number_of_shards <
        pyRound env.stats.primary_size_in_bytes size_30gb)]
  · rw [if_neg h45]

/-- Witness for C8_theorem: a 1-shard 1 GiB index matches no rule, and
the invocation is the two fetches only. -/
theorem C8_witness :
    1 ≤ envSmall1.config.number_of_shards ∧
    (index_optimize_shards optA envSmall1 ("replacement-8") ("logs") =
        ([Call.index_get_config ("logs"), Call.index_get_stats ("logs")],
         Except.ok ()) ∧
      (Call.index_get_config ("logs")).isMutating = false ∧
      (Call.index_get_stats ("logs")).isMutating = false) :=
  ⟨by decide,
    C8_theorem optA envSmall1 ("replacement-8") ("logs") (by decide) (by decide)
      (Or.inl (by norm_num [envSmall1, size_45gb]))⟩

/-- Claim C9: the creation timeout is non-decreasing in the index count
(data-node count fixed and positive), and the reindex timeout is
non-decreasing in the primary size in bytes. -/
theorem C9_theorem (d i1 i2 p1 p2 : Nat) (hd : 1 ≤ d) (hi : i1 ≤ i2) (hp : p1 ≤ p2) :
    c_timeout i1 d ≤ c_timeout i2 d ∧ r_timeout p1 ≤ r_timeout p2 := by
  constructor
  · exact Nat.add_le_add_left (pyRound_mono d i1 i2 (by omega) hi) 1
  · exact Nat.add_le_add_left (pyRound_mono 500000000 p1 p2 (by omega) hp) 1

/-- Witness for C9_theorem at concrete counts and sizes. -/
theorem C9_witness :
    1 ≤ 1 ∧ (c_timeout 1 1 ≤ c_timeout 2 1 ∧ r_timeout 0 ≤ r_timeout 500000000) :=
  ⟨by decide, C9_theorem 1 1 2 0 500000000 (by decide) (by decide) (by decide)⟩

/-- Claim C10: every run of the replace workflow (on a snapshot with at
least one data node) issues exactly the seven calls — fetch config,
create replacement, fetch stats, reindex, delete source, bind the
source's name as alias of the replacement, force-merge — in that order,
and the success or failure reported by any call never changes the
trace: any environment with the same config and stats responses yields
the identical run. -/
theorem C10_theorem (opt : IndexOptimizer) (env env2 : Env) (new_index index : String)
    (shards : Nat) (hd : 1 ≤ opt.datanodes)
    (hc : env2.config = env.config) (hstats : env2.stats = env.stats) :
    (index_replace opt env new_index index shards).1 =
      [Call.index_get_config index,
       Call.index_create new_index env.config.mappings shards env.config.analysis
         (if env.config.number_of_replicas > opt.datanodes then opt.datanodes
          else env.config.number_of_replicas)
         (c_timeout opt.indices opt.datanodes),
       Call.index_get_stats index,
       Call.index_reindex index new_index env.stats.shards_total
         (r_timeout env.stats.primary_size_in_bytes),
       Call.index_delete index,
       Call.alias_update new_index index,
       Call.index_forcemerge new_index] ∧
    index_replace opt env2 new_index index shards =
      index_replace opt env new_index index shards := by
  have h0 : ¬ opt.datanodes = 0 := by omega
  constructor
  · simp [index_replace, h0]
  · simp [index_replace, h0, hc, hstats]

/-- Environment equal to `envSmall4` except that every call reports
failure. -/
def envSmall4AllFail : Env :=
  { config := { mappings := "m", analysis := none, number_of_shards := 4,
                number_of_replicas := 0 },
    stats := { shards_total := 4, primary_size_in_bytes := 1073741824 },
    create_ok := false, reindex_ok := false, delete_ok := false }

/-- Witness for C10_theorem: the all-success and all-failure
environments produce the identical seven-call trace. -/
theorem C10_witness :
    1 ≤ optA.datanodes ∧
    ((index_replace optA envSmall4 ("replacement-10") ("logs") 1).1 =
      [Call.index_get_config ("logs"),
       Call.index_create ("replacement-10") envSmall4.config.mappings 1
         envSmall4.config.analysis
         (if envSmall4.config.number_of_replicas > optA.datanodes then optA.datanodes
          else envSmall4.config.number_of_replicas)
         (c_timeout optA.indices optA.datanodes),
       Call.index_get_stats ("logs"),
       Call.index_reindex ("logs") ("replacement-10") envSmall4.stats.shards_total
         (r_timeout envSmall4.stats.primary_size_in_bytes),
       Call.index_delete ("logs"),
       Call.alias_update ("replacement-10") ("logs"),
       Call.index_forcemerge ("replacement-10")] ∧
    index_replace optA envSmall4AllFail ("replacement-10") ("logs") 1 =
      index_replace optA envSmall4 ("replacement-10") ("logs") 1) :=
  ⟨by decide,
    C10_theorem optA envSmall4 envSmall4AllFail ("replacement-10") ("logs") 1
      (by decide) rfl rfl⟩

end Es
